import Mathlib

/-!
Verification of the asynchronous task-dispatch engine of the repository
(`src/k2basecamp/services/motion_controller_thread.py` and
`src/k2basecamp/services/motion_controller_service.py`), as a shallow
embedding in Lean 4.

Modelling conventions:
* Python values that flow through the engine are modelled by the inductive
  `Value`; device identifiers (`k2basecamp.utils.enums.Drive`) are the
  `Value.drive` constructor.
* Python exceptions are modelled by `PyExc`.  The six exception classes
  caught by the worker's `try/except` (lines 70-77 of
  motion_controller_thread.py) are the "domain failure" constructors;
  `AttributeError`, `IndexError`, `TypeError` and `RuntimeError` stand for
  exceptions outside that closed set.
* A task's `action` is an opaque function from its positional and keyword
  arguments to either a return value or a raised exception.
* Wall-clock time (`time.time()`) is abstracted as a monotone counter: the
  worker's clock advances by one unit per executed task, so every report
  carries its start tick as `timestamp` and `duration = 1`.
* Qt signal emission (`task_completed.emit` / `task_errored.emit`) is
  modelled as appending an `Event` to an ordered event list; `logger.error`
  has no observable effect beyond the emission and is not modelled
  separately.
-/

/-- Device identifier enum, from `k2basecamp.utils.enums.Drive`
(declared outside src; only the two members used by the service). -/
inductive Drive where
  | Left
  | Right
deriving DecidableEq

/-- A plain Python function object, abstracted to its stable qualified name
(`__qualname__`). -/
structure PlainFunc where
  qualname : String
deriving DecidableEq

/-- A callback object as the worker inspects it (lines 80-83 of
motion_controller_thread.py): either a plain function, or a
functools. partial object wrapping a plain function (`withBound f`
models `partial(f, ...)`; the bound arguments are never read by the
worker, only `callback.func.__qualname__`). -/
inductive Callback where
  | func (f : PlainFunc)
  | withBound (f : PlainFunc)
deriving DecidableEq

/-- Python run-time values flowing through the dispatch engine. -/
inductive Value where
  | pynone
  | bool (b : Bool)
  | int (n : Int)
  | str (s : String)
  | drive (d : Drive)
  | callable (cb : Callback)
deriving DecidableEq

/-- Python exceptions relevant to the engine.  The first six constructors
are exactly the classes of the worker's `except` tuple
(`IMException, ILError, ValueError, KeyError, FileNotFoundError,
ConnectionError`); the remaining constructors represent exceptions outside
that closed set. -/
inductive PyExc where
  | IMException (msg : String)
  | ILError (msg : String)
  | ValueError (msg : String)
  | KeyError (msg : String)
  | FileNotFoundError (msg : String)
  | ConnectionError (msg : String)
  | AttributeError (msg : String)
  | IndexError (msg : String)
  | TypeError (msg : String)
  | RuntimeError (msg : String)
deriving DecidableEq

/-- Whether an exception is matched by the worker's `except` clause
(motion_controller_thread.py lines 70-77). -/
def isDomainFailure : PyExc → Bool
  | PyExc.IMException _ => true
  | PyExc.ILError _ => true
  | PyExc.ValueError _ => true
  | PyExc.KeyError _ => true
  | PyExc.FileNotFoundError _ => true
  | PyExc.ConnectionError _ => true
  | PyExc.AttributeError _ => false
  | PyExc.IndexError _ => false
  | PyExc.TypeError _ => false
  | PyExc.RuntimeError _ => false

/-- Keyword arguments, as an ordered association list. -/
abbrev Kwargs := List (String × Value)

/-- An opaque operation: called with positional and keyword arguments, it
either returns a value or raises an exception. -/
abbrev PyAction := List Value → Kwargs → Except PyExc Value

/-- Modelled from the spec: the Task record
(`k2basecamp.utils.types.motion_controller_task`, whose defining module is
not under src; field names follow the keyword construction in
`MotionControllerService.run`, lines 77-84 of
motion_controller_service.py). -/
structure motion_controller_task where
  action : PyAction
  callback : Callback
  args : List Value
  kwargs : Kwargs

/-- Modelled from the spec: the Report record
(`k2basecamp.utils.types.thread_report`, whose defining module is not under
src; fields follow the positional construction in
`MotionControllerThread.run`, lines 90-97 of motion_controller_thread.py,
named after the worker's local variables). -/
structure thread_report where
  drive : Option Drive
  func_name : String
  output : Option Value
  timestamp : Nat
  duration : Nat
  raised_exception : Option PyExc
deriving DecidableEq

/-- An emission of the worker: `task_completed.emit(task.callback, report)`
on success, `task_errored.emit(report)` on a caught domain failure
(motion_controller_thread.py lines 98-102). -/
inductive Event where
  | completed (callback : Callback) (report : thread_report)
  | errored (report : thread_report)
deriving DecidableEq

/-- The device-identifier scan of the worker (motion_controller_thread.py
lines 84-89): `drive = None; if task.args: for arg in task.args:
if isinstance(arg, Drive): drive = arg; break`.  Only the positional
arguments are scanned, first match wins. -/
def findDrive : List Value → Option Drive
  | [] => Option.none
  | Value.drive d :: _ => Option.some d
  | _ :: rest => findDrive rest

/-- The callback-name resolution of the worker (motion_controller_thread.py
lines 80-83): `task.callback.func.__qualname__` when the callback is a
functools. partial, else `task.callback.__qualname__`. -/
def callbackQualname : Callback → String
  | Callback.withBound f => f.qualname
  | Callback.func f => f.qualname

/-- The `thread_report(...)` construction of the worker
(motion_controller_thread.py lines 90-97). -/
def mkReport (t : motion_controller_task) (output : Option Value)
    (timestamp duration : Nat) (exc : Option PyExc) : thread_report :=
  { drive := findDrive t.args
  , func_name := callbackQualname t.callback
  , output := output
  , timestamp := timestamp
  , duration := duration
  , raised_exception := exc }

/-- One execution step of the worker's loop body on a dequeued task
(motion_controller_thread.py lines 65-102): run
`task.action(*task.args, **task.kwargs)`; a domain failure is caught and
becomes an `errored` event, a success becomes a `completed` event carrying
the callback, and any other exception escapes the `try` uncaught
(`Except.error`). -/
def runTask (t : motion_controller_task) (timestamp : Nat) :
    Except PyExc Event :=
  match t.action t.args t.kwargs with
  | Except.ok v =>
      Except.ok (Event.completed t.callback
        (mkReport t (Option.some v) timestamp 1 Option.none))
  | Except.error e =>
      if isDomainFailure e then
        Except.ok (Event.errored
          (mkReport t Option.none timestamp 1 (Option.some e)))
      else Except.error e

/-- Outcome of running the worker's loop over the current queue contents
while the running flag stays up: `blocked` when the queue drains and the
worker waits in `queue.get()` for more work, `terminated` when the sentinel
`None` is dequeued (`break`, remaining queue abandoned), `crashed` when a
task raises outside the closed domain set and the exception escapes the
loop. -/
inductive LoopOutcome where
  | blocked (events : List Event)
  | terminated (events : List Event) (remaining : List (Option motion_controller_task))
  | crashed (events : List Event) (e : PyExc)

/-- The worker's `run` loop (motion_controller_thread.py lines 60-103)
processing the queue front-to-back, with `__running` held true (no
concurrent `stop()`; the interleaved semantics is `workerStep` below).
`events` is the accumulator of emitted signals, in emission order. -/
def runWorkerAux : List (Option motion_controller_task) → Nat → List Event →
    LoopOutcome
  | [], _, evs => LoopOutcome.blocked evs
  | Option.none :: rest, _, evs => LoopOutcome.terminated evs rest
  | Option.some t :: rest, time, evs =>
      match runTask t time with
      | Except.ok ev => runWorkerAux rest (time + 1) (evs ++ [ev])
      | Except.error e => LoopOutcome.crashed evs e

/-- Control position of the worker inside its `run` loop: `atCheck` is the
`while self.__running` test, `haveTask item` is the point right after
`task = self.queue.get()` returned `item` (the task is in flight), `done`
is loop exit, `crashed e` is abnormal termination by an uncaught
exception. -/
inductive Phase where
  | atCheck
  | haveTask (item : Option motion_controller_task)
  | done
  | crashed (e : PyExc)

/-- Shared state of the worker thread and its callers: the `__running`
flag, the task queue (front at the head; `Option.none` is the sentinel),
the ordered list of emitted events, and the abstract clock. -/
structure SysState where
  running : Bool
  queue : List (Option motion_controller_task)
  events : List Event
  time : Nat
  phase : Phase

/-- One atomic step of the worker's loop (motion_controller_thread.py
lines 60-103).  At `atCheck` the `while self.__running` condition is
tested and, when it holds and the queue is non-empty, one item is dequeued
(a worker blocked in `queue.get()` on an empty queue makes no progress).
At `haveTask` the dequeued item is inspected: the sentinel breaks the
loop; a task is executed, its report built, and the corresponding signal
emitted, returning to the check.  An exception outside the closed domain
set crashes the loop.  External calls (`threadStop`, `queuePut`) may be
interleaved between any two steps. -/
def workerStep (s : SysState) : SysState :=
  match s.phase with
  | Phase.atCheck =>
      if s.running then
        match s.queue with
        | [] => s
        | item :: rest => { s with queue := rest, phase := Phase.haveTask item }
      else { s with phase := Phase.done }
  | Phase.haveTask Option.none => { s with phase := Phase.done }
  | Phase.haveTask (Option.some t) =>
      match runTask t s.time with
      | Except.ok ev =>
          { s with events := s.events ++ [ev], time := s.time + 1
                 , phase := Phase.atCheck }
      | Except.error e => { s with phase := Phase.crashed e }
  | Phase.done => s
  | Phase.crashed _ => s

/-- `MotionControllerThread.stop` (motion_controller_thread.py lines
105-107): set `self.__running = False`, then `self.queue.put(item=None)`;
the method returns immediately after the put, performing no join.  It can
be called between any two worker steps. -/
def threadStop (s : SysState) : SysState :=
  { s with running := false, queue := s.queue ++ [Option.none] }

/-- `queue.put` of a task by a submitting context, interleaved with the
worker. -/
def queuePut (s : SysState) (t : motion_controller_task) : SysState :=
  { s with queue := s.queue ++ [Option.some t] }

/-- Association-list lookup with string keys, modelling Python attribute /
dict lookup (`getattr`, `dict[key]`); Python dict keys are unique, the
model reads the first matching entry. -/
def lookupAttr {α : Type} (attrs : List (String × α)) (name : String) :
    Option α :=
  match attrs with
  | [] => Option.none
  | (k, v) :: rest => if k = name then Option.some v else lookupAttr rest name

/-- The bound `ingeniamotion.MotionController` handle, abstracted to its
attribute shape: named modules, each exposing named callable methods. -/
structure MotionController where
  modules : List (String × List (String × PyAction))

/-- Python `str.split` on the separator `"."`, defined over the character
list so that it computes by kernel reduction.  Agrees with Python:
an empty string yields `[""]`, `"a.b.c"` yields three parts. -/
def splitDotChars : List Char → List Char → List String
  | [], acc => [String.mk acc.reverse]
  | c :: cs, acc =>
      if c = '.' then String.mk acc.reverse :: splitDotChars cs []
      else splitDotChars cs (c :: acc)

/-- `command.split(".")` as used in `MotionControllerService.run`. -/
def splitDot (s : String) : List String :=
  splitDotChars s.toList []

/-- `getattr(obj, name)` raising `AttributeError` when absent. -/
def getattrE {α : Type} (attrs : List (String × α)) (name : String) :
    Except PyExc α :=
  match lookupAttr attrs name with
  | Option.some v => Except.ok v
  | Option.none => Except.error (PyExc.AttributeError name)

/-- Symbolic-command resolution in `MotionControllerService.run`
(motion_controller_service.py lines 69-72):
`module_name, method_name = command.split(".")` (a `ValueError` unless the
split yields exactly two parts), then two attribute lookups on the bound
MotionController handle.  Runs on the submitting context. -/
def resolveCommand (mc : MotionController) (command : String) :
    Except PyExc PyAction :=
  match splitDot command with
  | [module_name, method_name] =>
      match getattrE mc.modules module_name with
      | Except.ok module => getattrE module method_name
      | Except.error e => Except.error e
  | _ => Except.error (PyExc.ValueError "unpack")

/-- `MotionControllerService.run` (motion_controller_service.py lines
47-84), executed on the submitting context: resolve a string command
against the MotionController handle (or take a callable directly), build a
`motion_controller_task` and put it on the worker's queue.  Returns the
new queue contents; an `Except.error` is an exception propagating to the
submitter, in which case nothing was enqueued. -/
def serviceRun (mc : MotionController)
    (queue : List (Option motion_controller_task)) (report_callback : Callback)
    (command : Sum PyAction String) (args : List Value) (kwargs : Kwargs) :
    Except PyExc (List (Option motion_controller_task)) :=
  match command with
  | Sum.inr s =>
      match resolveCommand mc s with
      | Except.ok method =>
          Except.ok (queue ++
            [Option.some (motion_controller_task.mk method report_callback args kwargs)])
      | Except.error e => Except.error e
  | Sum.inl f =>
      Except.ok (queue ++
        [Option.some (motion_controller_task.mk f report_callback args kwargs)])

/-- The `run_on_thread` decorator's wrapper
(motion_controller_service.py lines 113-118): evaluate the decorated
method's body first (`on_thread = func(self, *args, **kwargs)`, the inner
operation closure), then `self.run(args[0], on_thread, *args[1:],
**kwargs)` - the first positional argument is the report callback, the
rest are forwarded as the closure's arguments.  The wrapper returns
`None`; the model covers calls following the documented convention (a
callback as first positional argument) and returns the new queue
contents. -/
def run_on_thread (func : List Value → Kwargs → PyAction)
    (mc : MotionController) (queue : List (Option motion_controller_task))
    (args : List Value) (kwargs : Kwargs) :
    Option (List (Option motion_controller_task)) :=
  let on_thread := func args kwargs
  match args with
  | Value.callable cb :: rest =>
      (serviceRun mc queue cb (Sum.inl on_thread) rest kwargs).toOption
  | _ => Option.none

/-- `MotionControllerService.execute_callback`
(motion_controller_service.py lines 280-292), the success-channel
consumer: `callback(thread_report)` - a single invocation of the callback
with the report. -/
def execute_callback {α : Type} (callback : thread_report → α)
    (report : thread_report) : α :=
  callback report

/-- The success-channel delivery: the worker's `task_completed` signal is
connected to `execute_callback`, so each `completed (cb, report)` event
produces exactly one invocation `cb report`, in emission order; `errored`
events go to the separate error channel. -/
def successDeliveries : List Event → List (Callback × thread_report)
  | [] => []
  | Event.completed cb r :: rest => (cb, r) :: successDeliveries rest
  | Event.errored _ :: rest => successDeliveries rest

/-- Modelled from the spec: the PollerThread collaborator
(`k2basecamp.services.poller_thread.PollerThread`, not under src) at its
interface, per section 6 of the spec: `is_running() -> bool` and
`stop()`.  Abstracted to its running bit. -/
structure PollerThread where
  running : Bool
deriving DecidableEq

/-- Modelled from the spec: `PollerThread.stop()` stops the poller, after
which `is_running()` is false. -/
def PollerThread.stop (p : PollerThread) : PollerThread :=
  { p with running := false }

/-- Modelled from the spec: `PollerThread.is_running()`. -/
def PollerThread.isRunning (p : PollerThread) : Bool :=
  p.running

/-- Replace the value stored under the first occurrence of a key,
modelling the in-place mutation `self.__poller_threads[alias].stop()`
(the dict mapping keeps the same, now-stopped, object). -/
def updateFirst (ps : List (String × PollerThread)) (a : String)
    (p : PollerThread) : List (String × PollerThread) :=
  match ps with
  | [] => []
  | (k, q) :: rest =>
      if k = a then (k, p) :: rest else (k, q) :: updateFirst rest a p

/-- `MotionControllerService.stop_poller_thread`
(motion_controller_service.py lines 324-327): `if alias in
self.__poller_threads and self.__poller_threads[alias].isRunning():
self.__poller_threads[alias].stop()`.  Total - it raises nothing. -/
def stop_poller_thread (ps : List (String × PollerThread)) (a : String) :
    List (String × PollerThread) :=
  match lookupAttr ps a with
  | Option.some p =>
      if p.isRunning then updateFirst ps a (PollerThread.stop p) else ps
  | Option.none => ps

/-- The per-task event trace of a queue of tasks, front to back: each task
contributes the event the worker emits for it (success or caught domain
failure); the trace stops at a task whose exception escapes the loop. -/
def taskEvents : List motion_controller_task → Nat → List Event
  | [], _ => []
  | t :: ts, time =>
      match runTask t time with
      | Except.ok ev => ev :: taskEvents ts (time + 1)
      | Except.error _ => []

/-- A task whose execution does not crash the worker's loop: its action
either returns normally or raises an exception of the closed domain set
(which the worker catches and turns into an error emission). -/
def taskNoCrash (t : motion_controller_task) : Bool :=
  match t.action t.args t.kwargs with
  | Except.ok _ => true
  | Except.error e => isDomainFailure e

/-- The spec's reading of the device-identifier scan: `isinstance(arg,
Drive)` as a partial recognizer, to state "first match wins" via
`List.findSome?`. -/
def valueDrive : Value → Option Drive
  | Value.drive d => Option.some d
  | _ => Option.none

/-- The report carried by an emitted event. -/
def eventReport : Event → thread_report
  | Event.completed _ r => r
  | Event.errored r => r

/-- Concrete callbacks and tasks used as witnesses and counterexamples. -/
def cb1 : Callback := Callback.func (PlainFunc.mk "ConnectionController.scan_report")

def cb2 : Callback := Callback.func (PlainFunc.mk "ConnectionController.connect_report")

def cb3 : Callback := Callback.func (PlainFunc.mk "ConnectionController.disconnect_report")

def task1 : motion_controller_task :=
  motion_controller_task.mk (fun _ _ => Except.ok (Value.int 1)) cb1 [] []

def task2 : motion_controller_task :=
  motion_controller_task.mk (fun _ _ => Except.ok (Value.int 2)) cb2 [] []

def task3 : motion_controller_task :=
  motion_controller_task.mk (fun _ _ => Except.ok (Value.int 3)) cb3 [] []

def cbA : Callback := Callback.func (PlainFunc.mk "ConnectionController.register_report")

def taskA : motion_controller_task :=
  motion_controller_task.mk (fun _ _ => Except.ok (Value.int 42)) cbA [] []

def cbB : Callback :=
  Callback.withBound (PlainFunc.mk "MotionControllerService.connect_drives")

def taskB : motion_controller_task :=
  motion_controller_task.mk
    (fun _ _ => Except.error (PyExc.ILError "No dictionary selected.")) cbB [] []

/-- Scenario D initial state: T2 and T3 queued, worker inside its loop at
the `while` check, `stop()` not yet called. -/
def stateD : SysState :=
  { running := true
  , queue := [Option.some task2, Option.some task3]
  , events := []
  , time := 0
  , phase := Phase.atCheck }

/-- State after the worker has dequeued `task2` while `stop()` has already
flipped the flag and enqueued the sentinel behind `task3`. -/
def stateD2 : SysState :=
  { running := false
  , queue := [Option.some task3, Option.none]
  , events := []
  , time := 0
  , phase := Phase.haveTask (Option.some task2) }

/-- State with `task2` in flight (dequeued, mid-execution) and `task3`
still queued, before any `stop()` call. -/
def stateMid : SysState :=
  { running := true
  , queue := [Option.some task3]
  , events := []
  , time := 0
  , phase := Phase.haveTask (Option.some task2) }

/-- A MotionController handle exposing no modules, for resolution-failure
witnesses. -/
def mcEmpty : MotionController := MotionController.mk []

def cbC7 : Callback :=
  Callback.withBound (PlainFunc.mk "MotionControllerService.enable_motor")

def taskC7 : motion_controller_task :=
  motion_controller_task.mk (fun _ _ => Except.ok Value.pynone) cbC7
    [Value.int 7, Value.drive Drive.Right, Value.drive Drive.Left] []

def evC7 : Event :=
  Event.completed cbC7 (mkReport taskC7 (Option.some Value.pynone) 0 1 Option.none)

/-- A task whose device identifier is passed only as a keyword argument. -/
def taskKw : motion_controller_task :=
  motion_controller_task.mk (fun _ _ => Except.ok Value.pynone) cb1
    [Value.int 3] [("drive", Value.drive Drive.Left)]

def evKw : Event :=
  Event.completed cb1 (mkReport taskKw (Option.some Value.pynone) 0 1 Option.none)

def pollerLeft : PollerThread := PollerThread.mk true

def regLeft : List (String × PollerThread) := [("left", pollerLeft)]

/-- Helper: an event produced by `runTask` carries a report whose `drive`
and `func_name` fields come from the worker's argument scan and callback
inspection. -/
theorem runTask_ok_report (t : motion_controller_task) (time : Nat)
    (ev : Event) (h : runTask t time = Except.ok ev) :
    (eventReport ev).drive = findDrive t.args ∧
    (eventReport ev).func_name = callbackQualname t.callback := by
  cases hact : t.action t.args t.kwargs with
  | ok v =>
      simp only [runTask, hact, Except.ok.injEq] at h
      subst h
      exact ⟨rfl, rfl⟩
  | error e =>
      cases hdf : isDomainFailure e
      · simp [runTask, hact, hdf] at h
      · simp only [runTask, hact, hdf, if_true, Except.ok.injEq] at h
        subst h
        exact ⟨rfl, rfl⟩

/-- Helper: the source's first-match scan over the positional arguments
agrees with `List.findSome?` of the drive recognizer. -/
theorem findDrive_eq_findSome (args : List Value) :
    findDrive args = args.findSome? valueDrive := by
  induction args with
  | nil => rfl
  | cons a rest ih => cases a <;> simp [findDrive, List.findSome?_cons, valueDrive, ih]

/-- C4: for every task whose action returns normally, the worker emits
exactly one `completed` event on the success channel, paired with the
task's callback, whose report has `output` set to the returned value and
no `raised_exception`; the success-channel consumer turns that one event
into one `execute_callback` invocation, i.e. one call `callback report`;
the loop then continues with the rest of the queue. -/
theorem worker_success_report (t : motion_controller_task)
    (rest : List (Option motion_controller_task)) (time : Nat)
    (evs : List Event) (v : Value)
    (h : t.action t.args t.kwargs = Except.ok v) :
    runWorkerAux (Option.some t :: rest) time evs =
      runWorkerAux rest (time + 1)
        (evs ++ [Event.completed t.callback
          (mkReport t (Option.some v) time 1 Option.none)]) ∧
    (mkReport t (Option.some v) time 1 Option.none).output = Option.some v ∧
    (mkReport t (Option.some v) time 1 Option.none).raised_exception =
      Option.none ∧
    successDeliveries [Event.completed t.callback
        (mkReport t (Option.some v) time 1 Option.none)] =
      [(t.callback, mkReport t (Option.some v) time 1 Option.none)] ∧
    ∀ (α : Type) (f : thread_report → α) (r : thread_report),
      execute_callback f r = f r := by
  refine ⟨?_, rfl, rfl, rfl, fun α f r => rfl⟩
  simp [runWorkerAux, runTask, h]

/-- C4 witness: spec scenario A - a task whose action returns `42` yields
one success event whose report has `output = 42` and no exception. -/
theorem worker_success_report_witness :
    runWorkerAux [Option.some taskA] 0 [] =
      LoopOutcome.blocked
        [Event.completed cbA (mkReport taskA (Option.some (Value.int 42)) 0 1 Option.none)] := by
  have h := (worker_success_report taskA [] 0 [] (Value.int 42) rfl).1
  simpa [runWorkerAux] using h

/-- C2: a task whose action raises an exception of the closed domain set
(the worker's `except` tuple) produces exactly one `errored` event whose
report carries the caught exception and no output, and the loop continues
with the rest of the queue; a task whose action raises any other
exception crashes the loop (the exception is not caught and the worker's
execution terminates abnormally, having emitted nothing for that task). -/
theorem worker_error_classification (t : motion_controller_task)
    (rest : List (Option motion_controller_task)) (time : Nat)
    (evs : List Event) (e : PyExc)
    (h : t.action t.args t.kwargs = Except.error e) :
    runWorkerAux (Option.some t :: rest) time evs =
      if isDomainFailure e then
        runWorkerAux rest (time + 1)
          (evs ++ [Event.errored
            (mkReport t Option.none time 1 (Option.some e))])
      else LoopOutcome.crashed evs e := by
  by_cases hd : isDomainFailure e <;> simp [runWorkerAux, runTask, h, hd]

/-- C2 witness: spec scenario B - a task raising
`ILError "No dictionary selected."` yields one error-channel event whose
report has the exception set and `output` absent, and the worker keeps
waiting for further tasks. -/
theorem worker_error_classification_witness :
    runWorkerAux [Option.some taskB] 0 [] =
      LoopOutcome.blocked
        [Event.errored (mkReport taskB Option.none 0 1
          (Option.some (PyExc.ILError "No dictionary selected.")))] := by
  have h := worker_error_classification taskB [] 0 []
    (PyExc.ILError "No dictionary selected.") rfl
  simpa [runWorkerAux, isDomainFailure] using h

/-- Helper: a task that does not crash the loop has an event emitted by
`runTask`: the success event when its action returns, the error event
when it raises a caught domain failure. -/
theorem taskNoCrash_runTask (t : motion_controller_task) (time : Nat)
    (h : taskNoCrash t = true) : ∃ ev, runTask t time = Except.ok ev := by
  cases hact : t.action t.args t.kwargs with
  | ok v =>
      refine ⟨Event.completed t.callback
        (mkReport t (Option.some v) time 1 Option.none), ?_⟩
      simp only [runTask, hact]
  | error e =>
      simp only [taskNoCrash, hact] at h
      refine ⟨Event.errored (mkReport t Option.none time 1 (Option.some e)), ?_⟩
      simp only [runTask, hact, h, if_true]

/-- Helper: while no queued task crashes the loop, the worker drains the
queue front to back, appending each task's event (success or caught
domain failure) to the emission list in dequeue order, and ends up
waiting for more work. -/
theorem runWorkerAux_no_crash (ts : List motion_controller_task) :
    ∀ (time : Nat) (evs : List Event),
    (∀ t ∈ ts, taskNoCrash t = true) →
    runWorkerAux (ts.map Option.some) time evs =
      LoopOutcome.blocked (evs ++ taskEvents ts time) := by
  induction ts with
  | nil =>
      intro time evs _
      simp [runWorkerAux, taskEvents]
  | cons t ts ih =>
      intro time evs h
      obtain ⟨ev, hev⟩ := taskNoCrash_runTask t time (h t (List.mem_cons_self t ts))
      have hrest : ∀ u ∈ ts, taskNoCrash u = true :=
        fun u hu => h u (List.mem_cons_of_mem t hu)
      simp only [List.map_cons, runWorkerAux, hev]
      rw [ih (time + 1) (evs ++ [ev]) hrest]
      have htr : taskEvents (t :: ts) time = ev :: taskEvents ts (time + 1) := by
        simp [taskEvents, hev]
      rw [htr]
      simp

/-- Helper: when no task crashes the loop, the event trace has one event
per task. -/
theorem taskEvents_length (ts : List motion_controller_task) :
    ∀ time : Nat,
    (∀ t ∈ ts, taskNoCrash t = true) →
    (taskEvents ts time).length = ts.length := by
  induction ts with
  | nil => intro time _; rfl
  | cons t ts ih =>
      intro time h
      obtain ⟨ev, hev⟩ := taskNoCrash_runTask t time (h t (List.mem_cons_self t ts))
      simp [taskEvents, hev,
        ih (time + 1) (fun u hu => h u (List.mem_cons_of_mem t hu))]

/-- Helper: when no task crashes the loop, the i-th event of the trace
is the event of the i-th task - its success event (completed, with the
task's callback, output set, no exception) when its action returns, or
its error emission (errored, with the caught exception set and output
absent) when it raises a domain failure. -/
theorem taskEvents_get? (ts : List motion_controller_task) :
    ∀ (time i : Nat), i < ts.length →
    (∀ t ∈ ts, taskNoCrash t = true) →
    ∃ t, ts.get? i = Option.some t ∧
      ((∃ v, t.action t.args t.kwargs = Except.ok v ∧
          (taskEvents ts time).get? i =
            Option.some (Event.completed t.callback
              (mkReport t (Option.some v) (time + i) 1 Option.none))) ∨
       (∃ e, t.action t.args t.kwargs = Except.error e ∧
          isDomainFailure e = true ∧
          (taskEvents ts time).get? i =
            Option.some (Event.errored
              (mkReport t Option.none (time + i) 1 (Option.some e))))) := by
  induction ts with
  | nil =>
      intro time i hi _
      exact absurd hi (by simp)
  | cons t ts ih =>
      intro time i hi h
      have ht := h t (List.mem_cons_self t ts)
      cases i with
      | zero =>
          refine ⟨t, rfl, ?_⟩
          cases hact : t.action t.args t.kwargs with
          | ok v =>
              refine Or.inl ⟨v, rfl, ?_⟩
              simp [taskEvents, runTask, hact]
          | error e =>
              simp only [taskNoCrash, hact] at ht
              refine Or.inr ⟨e, rfl, ht, ?_⟩
              simp [taskEvents, runTask, hact, ht]
      | succ j =>
          have hj : j < ts.length := Nat.lt_of_succ_lt_succ hi
          obtain ⟨u, hget, hcase⟩ :=
            ih (time + 1) j hj (fun u hu => h u (List.mem_cons_of_mem t hu))
          obtain ⟨ev, hev⟩ := taskNoCrash_runTask t time ht
          refine ⟨u, by simpa using hget, ?_⟩
          have harith : time + 1 + j = time + (j + 1) := by omega
          have hstep : (taskEvents (t :: ts) time).get? (j + 1) =
              (taskEvents ts (time + 1)).get? j := by
            simp [taskEvents, hev]
          rcases hcase with ⟨v, hact, hv⟩ | ⟨e, hact, hdf, hv⟩
          · refine Or.inl ⟨v, hact, ?_⟩
            rw [hstep, ← harith]
            exact hv
          · refine Or.inr ⟨e, hact, hdf, ?_⟩
            rw [hstep, ← harith]
            exact hv

/-- C3: FIFO preservation - for every sequence of tasks submitted to the
worker's queue none of which crashes the loop, the worker dequeues and
executes them in submission order and the reports - success callbacks
and error emissions alike - are produced in that same order: the trace
has exactly one event per task and its i-th event is the i-th submitted
task's success callback/report pairing (action returned) or its error
emission (action raised a domain failure), never interleaved or
reordered. -/
theorem fifo_reports (ts : List motion_controller_task) (time : Nat)
    (h : ∀ t ∈ ts, taskNoCrash t = true) :
    runWorkerAux (ts.map Option.some) time [] =
      LoopOutcome.blocked (taskEvents ts time) ∧
    (taskEvents ts time).length = ts.length ∧
    ∀ i, i < ts.length →
      ∃ t, ts.get? i = Option.some t ∧
        ((∃ v, t.action t.args t.kwargs = Except.ok v ∧
            (taskEvents ts time).get? i =
              Option.some (Event.completed t.callback
                (mkReport t (Option.some v) (time + i) 1 Option.none))) ∨
         (∃ e, t.action t.args t.kwargs = Except.error e ∧
            isDomainFailure e = true ∧
            (taskEvents ts time).get? i =
              Option.some (Event.errored
                (mkReport t Option.none (time + i) 1 (Option.some e))))) := by
  refine ⟨?_, taskEvents_length ts time h, fun i hi => taskEvents_get? ts time i hi h⟩
  simpa using runWorkerAux_no_crash ts time [] h

/-- C3 witness: a mixed sequence - T1 succeeding, then a task raising
the domain failure `ILError "No dictionary selected."`, then T3
succeeding - produces its three reports in submission order: success,
error emission, success. -/
theorem fifo_reports_witness :
    runWorkerAux ([task1, taskB, task3].map Option.some) 0 [] =
      LoopOutcome.blocked
        [Event.completed cb1 (mkReport task1 (Option.some (Value.int 1)) 0 1 Option.none),
         Event.errored (mkReport taskB Option.none 1 1
           (Option.some (PyExc.ILError "No dictionary selected."))),
         Event.completed cb3 (mkReport task3 (Option.some (Value.int 3)) 2 1 Option.none)] := by
  have h := (fifo_reports [task1, taskB, task3] 0 (by
    intro t ht
    simp only [List.mem_cons, List.not_mem_nil, or_false] at ht
    rcases ht with rfl | rfl | rfl <;> rfl)).1
  rw [show taskEvents [task1, taskB, task3] 0 =
      [Event.completed cb1 (mkReport task1 (Option.some (Value.int 1)) 0 1 Option.none),
       Event.errored (mkReport taskB Option.none 1 1
         (Option.some (PyExc.ILError "No dictionary selected."))),
       Event.completed cb3 (mkReport task3 (Option.some (Value.int 3)) 2 1 Option.none)] from rfl] at h
  exact h

/-- C1 counterexample: spec scenario D refuted on the code.  Legal
interleaving: from `stateD` (T2 and T3 queued) the worker dequeues T2,
`stop()` is called while T2 is in flight, T2 completes and reports, and
the next `while self.__running` check observes the cleared flag and exits
the loop.  The worker terminates (`Phase.done`, a fixed point of
`workerStep`) having emitted only T2's report; T3 - enqueued strictly
before the sentinel - is still in the abandoned queue and never
executes, contradicting the claim that T3 executes and reports before
the Worker exits. -/
theorem stop_scenarioD_counterexample :
    (workerStep (workerStep (threadStop (workerStep stateD)))).phase =
      Phase.done ∧
    (workerStep (workerStep (threadStop (workerStep stateD)))).events =
      [Event.completed cb2
        (mkReport task2 (Option.some (Value.int 2)) 0 1 Option.none)] ∧
    (workerStep (workerStep (threadStop (workerStep stateD)))).queue =
      [Option.some task3, Option.none] ∧
    workerStep (workerStep (workerStep (threadStop (workerStep stateD)))) =
      workerStep (workerStep (threadStop (workerStep stateD))) :=
  ⟨rfl, rfl, rfl, rfl⟩

/-- C1 amended: once `stop()` has run (flag cleared, sentinel enqueued),
the task currently in flight still completes and its report is emitted;
the loop then observes the cleared flag at the next `while` check and
exits, leaving every still-queued item - tasks enqueued before the
sentinel included, and a fortiori anything enqueued after it -
unexecuted in the abandoned queue. -/
theorem stop_completes_inflight_abandons_queue (s : SysState)
    (t : motion_controller_task) (ev : Event)
    (hrun : s.running = false)
    (hph : s.phase = Phase.haveTask (Option.some t))
    (hexec : runTask t s.time = Except.ok ev) :
    (workerStep (workerStep s)).phase = Phase.done ∧
    (workerStep (workerStep s)).events = s.events ++ [ev] ∧
    (workerStep (workerStep s)).queue = s.queue ∧
    workerStep (workerStep (workerStep s)) = workerStep (workerStep s) := by
  have h1 : workerStep s =
      { s with events := s.events ++ [ev], time := s.time + 1
             , phase := Phase.atCheck } := by
    simp [workerStep, hph, hexec]
  have h2 : workerStep (workerStep s) =
      { s with events := s.events ++ [ev], time := s.time + 1
             , phase := Phase.done } := by
    rw [h1]
    simp [workerStep, hrun]
  rw [h2]
  exact ⟨rfl, rfl, rfl, rfl⟩

/-- C1 amended witness: the concrete scenario-D state after `stop()` -
T2 in flight, T3 and the sentinel queued - finishes T2, reports it, and
terminates with T3 still queued. -/
theorem stop_completes_inflight_witness :
    (workerStep (workerStep stateD2)).phase = Phase.done ∧
    (workerStep (workerStep stateD2)).events =
      [] ++ [Event.completed cb2
        (mkReport task2 (Option.some (Value.int 2)) 0 1 Option.none)] ∧
    (workerStep (workerStep stateD2)).queue = [Option.some task3, Option.none] ∧
    workerStep (workerStep (workerStep stateD2)) = workerStep (workerStep stateD2) :=
  stop_completes_inflight_abandons_queue stateD2 task2
    (Event.completed cb2 (mkReport task2 (Option.some (Value.int 2)) 0 1 Option.none))
    rfl rfl rfl

/-- C6 counterexample: `MotionControllerThread.stop()` returns as soon as
it has flipped the flag and enqueued the sentinel - no join.  From
`stateMid` (T2 dequeued and executing), at the moment `stop()` returns
the worker is still mid-task (`Phase.haveTask`, not `Phase.done`: the
loop has not terminated), and the in-flight task runs to completion and
emits its report after `stop()` has already returned - refuting "when
stop() returns, the Worker's loop has terminated". -/
theorem thread_stop_no_join_counterexample :
    (threadStop stateMid).phase = Phase.haveTask (Option.some task2) ∧
    (threadStop stateMid).events = [] ∧
    (workerStep (threadStop stateMid)).events =
      [Event.completed cb2
        (mkReport task2 (Option.some (Value.int 2)) 0 1 Option.none)] :=
  ⟨rfl, rfl, rfl⟩

/-- C6 amended: the Worker's `stop()` does not block until the loop has
terminated: it only clears the running flag and appends the sentinel,
leaving the worker's control position and emissions untouched, and
returns; an in-flight task still completes and reports afterwards, and
only then does the loop reach `Phase.done`.  (Join semantics is provided
separately: `MotionControllerService.stop_motion_controller_thread` calls
`stop()` and then `QThread.wait()`, and it is the `wait()` call that
blocks the caller until the worker's context has exited.) -/
theorem thread_stop_only_signals (s : SysState)
    (t : motion_controller_task) (ev : Event)
    (hph : s.phase = Phase.haveTask (Option.some t))
    (hexec : runTask t s.time = Except.ok ev) :
    (threadStop s).running = false ∧
    (threadStop s).queue = s.queue ++ [Option.none] ∧
    (threadStop s).phase = s.phase ∧
    (threadStop s).events = s.events ∧
    (workerStep (threadStop s)).events = s.events ++ [ev] ∧
    (workerStep (workerStep (threadStop s))).phase = Phase.done := by
  refine ⟨rfl, rfl, rfl, rfl, ?_, ?_⟩
  · simp [workerStep, threadStop, hph, hexec]
  · have h1 : workerStep (threadStop s) =
        { s with running := false, queue := s.queue ++ [Option.none]
               , events := s.events ++ [ev], time := s.time + 1
               , phase := Phase.atCheck } := by
      simp [workerStep, threadStop, hph, hexec]
    rw [h1]
    simp [workerStep]

/-- C6 amended witness: concrete in-flight state - `stop()` leaves the
worker mid-task, the task still reports, then the loop exits. -/
theorem thread_stop_only_signals_witness :
    (threadStop stateMid).running = false ∧
    (threadStop stateMid).queue = [Option.some task3] ++ [Option.none] ∧
    (threadStop stateMid).phase = stateMid.phase ∧
    (threadStop stateMid).events = [] ∧
    (workerStep (threadStop stateMid)).events =
      [] ++ [Event.completed cb2
        (mkReport task2 (Option.some (Value.int 2)) 0 1 Option.none)] ∧
    (workerStep (workerStep (threadStop stateMid))).phase = Phase.done :=
  thread_stop_only_signals stateMid task2
    (Event.completed cb2 (mkReport task2 (Option.some (Value.int 2)) 0 1 Option.none))
    rfl rfl

/-- C5 counterexample: a resolution failure does not terminate the
Worker's execution context.  Resolving `"foo.bar"` against a handle with
no such module raises `AttributeError` out of the Service's submission
method (on the submitting context, nothing enqueued), while the Worker -
whose loop never sees that exception - stays blocked on its unchanged
empty queue, still accepts a later submission, and executes it
normally. -/
theorem resolution_failure_worker_alive_counterexample :
    serviceRun mcEmpty [] cb1 (Sum.inr "foo.bar") [] [] =
      Except.error (PyExc.AttributeError "foo") ∧
    runWorkerAux [] 0 [] = LoopOutcome.blocked [] ∧
    serviceRun mcEmpty [] cbA (Sum.inl taskA.action) [] [] =
      Except.ok [Option.some taskA] ∧
    runWorkerAux [Option.some taskA] 0 [] =
      LoopOutcome.blocked
        [Event.completed cbA
          (mkReport taskA (Option.some (Value.int 42)) 0 1 Option.none)] :=
  ⟨rfl, rfl, rfl, rfl⟩

/-- C5 amended: every exception raised while resolving a two-part
symbolic command name (malformed name failing the two-way unpack, unknown
group, unknown method) is indeed not caught by the Worker's
domain-failure classification - but it is raised inside
`MotionControllerService.run` on the submitting context: it propagates
uncaught to the submitter, no task is enqueued, and the Worker's
execution context is unaffected. -/
theorem resolution_error_propagates_to_submitter (mc : MotionController)
    (queue : List (Option motion_controller_task)) (cb : Callback)
    (s : String) (args : List Value) (kwargs : Kwargs) (e : PyExc)
    (h : resolveCommand mc s = Except.error e) :
    serviceRun mc queue cb (Sum.inr s) args kwargs = Except.error e := by
  simp [serviceRun, h]

/-- C5 amended witness: an unknown module name propagates its
`AttributeError` out of the submission call. -/
theorem resolution_error_propagates_witness :
    serviceRun mcEmpty [] cb1 (Sum.inr "communication.get_register") [] [] =
      Except.error (PyExc.AttributeError "communication") :=
  resolution_error_propagates_to_submitter mcEmpty [] cb1
    "communication.get_register" [] [] (PyExc.AttributeError "communication") rfl

/-- C7: for every executed task (one whose event is emitted), the
report's `drive` (the spec's `subject`) is the first positional argument
recognized as a device identifier - `List.findSome?` of the recognizer,
first match wins, absent when no argument matches - and the report's
`func_name` (the spec's `operation_name`) is the callback's stable
qualified name, read through `.func` (one unwrapping step) exactly when
the callback is a functools. partial. -/
theorem report_subject_and_operation (t : motion_controller_task)
    (time : Nat) (ev : Event) (h : runTask t time = Except.ok ev) :
    (eventReport ev).drive = t.args.findSome? valueDrive ∧
    (eventReport ev).func_name =
      (match t.callback with
       | Callback.withBound f => f.qualname
       | Callback.func f => f.qualname) := by
  obtain ⟨hd, hf⟩ := runTask_ok_report t time ev h
  refine ⟨?_, ?_⟩
  · rw [hd, findDrive_eq_findSome]
  · rw [hf]
    cases t.callback <;> rfl

/-- C7 witness: a task whose positional arguments hold two device
identifiers gets the first one as subject, and a partial-wrapped callback
resolves to the wrapped function's qualified name. -/
theorem report_subject_and_operation_witness :
    (eventReport evC7).drive = Option.some Drive.Right ∧
    (eventReport evC7).func_name = "MotionControllerService.enable_motor" := by
  have h := report_subject_and_operation taskC7 0 evC7 rfl
  exact ⟨h.1.trans rfl, h.2.trans rfl⟩

/-- C10: the worker's device-identifier search scans only the positional
arguments: whenever no positional argument is a device identifier, the
report's subject is absent - regardless of the task's keyword arguments,
so a device identifier passed exclusively as a keyword argument is never
found. -/
theorem subject_ignores_kwargs (t : motion_controller_task) (time : Nat)
    (ev : Event) (h : runTask t time = Except.ok ev)
    (hargs : ∀ a ∈ t.args, valueDrive a = Option.none) :
    (eventReport ev).drive = Option.none := by
  obtain ⟨hd, _⟩ := runTask_ok_report t time ev h
  rw [hd, findDrive_eq_findSome]
  exact List.findSome?_eq_none_iff.mpr hargs

/-- C10 witness: a task whose drive is passed only as the keyword
argument `drive=Drive.Left` gets a report with subject absent. -/
theorem subject_ignores_kwargs_witness :
    (eventReport evKw).drive = Option.none :=
  subject_ignores_kwargs taskKw 0 evKw rfl
    (by
      intro a ha
      simp only [taskKw, List.mem_singleton] at ha
      subst ha
      rfl)

/-- C8: calling a method wrapped with the `run_on_thread` convention
first evaluates the method body on the full argument list to obtain the
inner operation closure, then submits with the first positional argument
as the report callback, the closure as the action, and the remaining
positional and keyword arguments forwarded - so exactly one task is
appended to the queue per wrapped call, and the call returns no
synchronous result (only the queue changes). -/
theorem run_on_thread_submits_one_task
    (func : List Value → Kwargs → PyAction) (mc : MotionController)
    (queue : List (Option motion_controller_task)) (cb : Callback)
    (rest : List Value) (kwargs : Kwargs) :
    run_on_thread func mc queue (Value.callable cb :: rest) kwargs =
      Option.some (queue ++
        [Option.some (motion_controller_task.mk
          (func (Value.callable cb :: rest) kwargs) cb rest kwargs)]) :=
  rfl

/-- Helper: replacing the value stored under a present key is visible to
a subsequent lookup of that key. -/
theorem lookupAttr_updateFirst (ps : List (String × PollerThread))
    (a : String) (p q : PollerThread)
    (h : lookupAttr ps a = Option.some q) :
    lookupAttr (updateFirst ps a p) a = Option.some p := by
  induction ps with
  | nil => simp [lookupAttr] at h
  | cons kv rest ih =>
      obtain ⟨k, v⟩ := kv
      by_cases hk : k = a
      · subst hk
        simp [lookupAttr, updateFirst]
      · simp only [lookupAttr, updateFirst, if_neg hk] at h ⊢
        exact ih h

/-- C9: `stop_poller_thread(alias)` stops the poller only when one is
registered under the alias and currently running; otherwise (alias never
registered, or registered but not running) it leaves the registry
unchanged - and, being a total function, it raises nothing.  In
particular a second consecutive call for the same alias is a no-op. -/
theorem stop_poller_thread_spec (ps : List (String × PollerThread))
    (a : String) :
    (lookupAttr ps a = Option.none → stop_poller_thread ps a = ps) ∧
    (∀ p, lookupAttr ps a = Option.some p → p.isRunning = false →
      stop_poller_thread ps a = ps) ∧
    (∀ p, lookupAttr ps a = Option.some p → p.isRunning = true →
      lookupAttr (stop_poller_thread ps a) a =
        Option.some (PollerThread.stop p)) ∧
    stop_poller_thread (stop_poller_thread ps a) a =
      stop_poller_thread ps a := by
  refine ⟨?_, ?_, ?_, ?_⟩
  · intro h
    simp [stop_poller_thread, h]
  · intro p hp hrun
    simp [stop_poller_thread, hp, hrun]
  · intro p hp hrun
    simp only [stop_poller_thread, hp, hrun, if_true]
    exact lookupAttr_updateFirst ps a (PollerThread.stop p) p hp
  · cases hl : lookupAttr ps a with
    | none => simp [stop_poller_thread, hl]
    | some p =>
        by_cases hrun : p.isRunning
        · have h1 : stop_poller_thread ps a =
              updateFirst ps a (PollerThread.stop p) := by
            simp [stop_poller_thread, hl, hrun]
          have h2 : lookupAttr (updateFirst ps a (PollerThread.stop p)) a =
              Option.some (PollerThread.stop p) :=
            lookupAttr_updateFirst ps a (PollerThread.stop p) p hl
          rw [h1]
          simp only [stop_poller_thread, h2]
          simp [PollerThread.stop, PollerThread.isRunning]
        · simp [stop_poller_thread, hl, hrun]

/-- C9 witness: spec scenario E - a running poller registered for
`"left"` is stopped by the first call, the second call is a no-op, and a
call for an unregistered alias is a no-op. -/
theorem stop_poller_thread_witness :
    lookupAttr (stop_poller_thread regLeft "left") "left" =
      Option.some (PollerThread.stop pollerLeft) ∧
    stop_poller_thread (stop_poller_thread regLeft "left") "left" =
      stop_poller_thread regLeft "left" ∧
    stop_poller_thread regLeft "right" = regLeft :=
  ⟨(stop_poller_thread_spec regLeft "left").2.2.1 pollerLeft rfl rfl,
   (stop_poller_thread_spec regLeft "left").2.2.2,
   (stop_poller_thread_spec regLeft "right").1 rfl⟩
